/-
Verification of the z21client protocol codec (fherb2/z21client).

Shallow embedding of the parts of `z21client.py` (and the identical copies under
`z21client/backup/`) that the specification talks about:

  * `bcd_decode` (z21client.py lines 744-750, identical to
    `backup/helpers/decoders.py` `bytes_to_BCD`) — BCD-with-decimal-point decoding;
  * `SndMsg.stream` (z21client.py lines 721-730, identical to
    `backup/z21client.py` lines 348-357) — the outbound dataset encoder;
  * `Z21Client.Rcv._proc_rcv_stream` (z21client.py lines 474-514) — the inbound
    datagram dispatcher loop;
  * the static message catalogs `Z21_DATASET.MSGs.TO_Z21` (lines 133-225) and
    `Z21_DATASET.MSGs.From_Z21` (lines 253-308).

Bytes are modelled as `List Nat` (each element a byte value 0-255); Python `int`
is modelled as `Int` (arbitrary precision, like Python); the BCD decoder, which
in Python mixes ints and floats through `10 ** negative`, is modelled over `ℚ`
(exact arithmetic; the Python floats approximate these rationals).
-/
import Mathlib

namespace Z21

/-! ## Byte-level helpers

`int.from_bytes(bs, byteorder='little')` and `int.to_bytes(length, 'little')`.
Python's `to_bytes` raises `OverflowError` when the value is negative or does
not fit in `width` bytes, hence the `Option`. -/

/-- Little-endian decoding of a byte list: `int.from_bytes(bs, 'little')`. -/
def fromBytesLE (bs : List Nat) : Nat :=
  bs.foldr (fun b acc => acc * 256 + b) 0

/-- Little-endian byte encoding of a nonnegative value known to fit:
the `i`-th byte is `v / 256^i % 256`. -/
def natToBytesLE (width : Nat) (v : Nat) : List Nat :=
  (List.range width).map (fun i => v / 256 ^ i % 256)

/-- Python's `v.to_bytes(width, 'little')` on an int: fails (`OverflowError`)
when `v` is negative or does not fit in `width` bytes. -/
def pyToBytesLE (width : Nat) (v : Int) : Option (List Nat) :=
  if 0 ≤ v ∧ v < (256 : Int) ^ width then some (natToBytesLE width v.toNat)
  else none

/-! ## BCD decoding

Source (z21client.py lines 744-750; `bytes_to_BCD` in
`backup/helpers/decoders.py` is the same code under another name):

```python
def bcd_decode(data:bytes, decimals:int = 0):
    """Decode a BCD number with decimal point"""
    res = 0
    for n, b in enumerate(reversed(data)):
        res += (b & 0x0F) * 10 ** (n * 2 - decimals)
        res += (b >> 4) * 10 ** (n * 2 + 1 - decimals)
    return res
```

For a byte `b` (0-255), `b & 0x0F = b % 16` and `b >> 4 = b / 16`.
Python's `10 ** e` is an integer for `e ≥ 0` and the float `1 / 10^|e|` for
`e < 0`; both are modelled exactly by `pow10 : ℤ → ℚ`. -/

/-- Python's `10 ** e` for an integer exponent, modelled exactly over `ℚ`. -/
def pow10 (e : Int) : ℚ :=
  if 0 ≤ e then ((10 : ℚ) ^ e.toNat) else 1 / (10 : ℚ) ^ (-e).toNat

/-- One loop iteration of `bcd_decode`: `n` is the enumeration index, `b` the byte. -/
def bcd_step (decimals : Int) (res : ℚ) (n : Nat) (b : Nat) : ℚ :=
  res + (b % 16 : Nat) * pow10 ((n : Int) * 2 - decimals)
      + (b / 16 : Nat) * pow10 ((n : Int) * 2 + 1 - decimals)

/-- Model of `bcd_decode(data, decimals)`: fold of `bcd_step` over `enumerate(reversed(data))`. -/
def bcd_decode (data : List Nat) (decimals : Int) : ℚ :=
  (data.reverse.enum).foldl (fun res nb => bcd_step decimals res nb.1 nb.2) 0

/-! ## The outbound encoder `SndMsg`

Source (z21client.py lines 625-730; `backup/z21client.py` lines 348-357 has the
byte-identical `stream` method):

```python
class SndMsg:
    def __init__(self, name, pack_callback, header, sub_header=None, db0=None):
        self._name = name
        self._pack_callback = pack_callback
        self._header = header
        self._sub_header = sub_header
        self._db0 = db0
        self._last_data = None

    def stream(self, data:Any) -> bytes:
        self._last_data = data
        byte_stream = (self.header & 0xFFFF).to_bytes(2, 'little')
        if self.sub_header is not None:
            byte_stream = (self.sub_header & 0xFFFF).to_bytes(2, 'little')
        if self.db0 is not None:
            byte_stream += (self.db0 & 0xFF).to_bytes(1, 'little')
        byte_stream += self.pack_callback(data)
        return len(byte_stream).to_bytes(2, 'little') + byte_stream
```

Note that the `if self.sub_header is not None:` branch *reassigns* `byte_stream`
(`=`, not `+=`): the header bytes computed on the previous line are discarded.

The payload type is Python's `Any`; the model is polymorphic in it. Python's
`h & 0xFFFF` on an arbitrary (possibly negative) int equals `h mod 2^16`
(Python ints behave as infinite two's complement, so masking with `0xFFFF`
keeps the low 16 bits, i.e. the canonical representative of `h` modulo
`2^16`); it is modelled as `Int.emod h 65536`, and likewise `d & 0xFF` as
`Int.emod d 256`. The inner `to_bytes` calls are modelled with `pyToBytesLE`
so that their (im)possible `OverflowError`s stay visible. -/

/-- The fields of a `SndMsg` object. `pack_callback` is the caller-supplied
encoder for the payload (`data -> bytes`). -/
structure SndMsg (α : Type) where
  _name : String
  pack_callback : α → List Nat
  _header : Int
  _sub_header : Option Int := none
  _db0 : Option Int := none
  _last_data : Option α := none

/-- The local variable `byte_stream` of `stream` just before the length field is
prepended: header bytes, *replaced* by the sub-header bytes when a sub-header is
present, then the optional db0 byte, then the packed payload. `none` would mean
one of the inner `to_bytes` calls raised `OverflowError`. -/
def SndMsg.byte_stream (m : SndMsg α) (data : α) : Option (List Nat) := do
  let bs0 ← pyToBytesLE 2 (Int.emod m._header 65536)
  let bs1 ← match m._sub_header with
            | none => pure bs0
            | some s => pyToBytesLE 2 (Int.emod s 65536)
  let bs2 ← match m._db0 with
            | none => pure bs1
            | some d => (pyToBytesLE 1 (Int.emod d 256)).map (bs1 ++ ·)
  pure (bs2 ++ m.pack_callback data)

/-- Model of `stream(self, data)`: the produced byte sequence (`none` when a `to_bytes`
call raises `OverflowError`, which can only happen for the final length field)
together with the updated object — Python mutates `self._last_data = data`
before anything else. -/
def SndMsg.stream (m : SndMsg α) (data : α) : Option (List Nat) × SndMsg α :=
  (do
    let body ← m.byte_stream data
    let lenBytes ← pyToBytesLE 2 (body.length : Int)
    pure (lenBytes ++ body),
   { m with _last_data := some data })

/-- The tag bytes the encoder actually emits: the sub-header (reduced mod `2^16`)
when present, otherwise the header (reduced mod `2^16`), followed by the db0 byte
(reduced mod `2^8`) when present. -/
def SndMsg.tag_bytes (m : SndMsg α) : List Nat :=
  (match m._sub_header with
   | none => natToBytesLE 2 (Int.emod m._header 65536).toNat
   | some s => natToBytesLE 2 (Int.emod s 65536).toNat) ++
  (match m._db0 with
   | none => []
   | some d => natToBytesLE 1 (Int.emod d 256).toNat)

/-! ## The inbound dispatcher `Z21Client.Rcv._proc_rcv_stream`

Source (z21client.py lines 474-514):

```python
def _proc_rcv_stream(self, udp_data_stream:bytes) -> None:
    stream = udp_data_stream.copy()
    while len(stream) >= 4: # Z21 Dataset must be at least 4 bytes long
        dataset_length = int.from_bytes(stream[:2], byteorder='little')
        if dataset_length > len(stream):
            raise ValueError(f"Length information in Z21 answer is wrong. ...")
        dataset_header = int.from_bytes(stream[2:4], byteorder='little')
        dataset_data = stream[4:dataset_length]
        stream = stream[dataset_length:]
        self._process_dataset(dataset_header, dataset_data)
        ... # lines 485-514: catalog walk and callback invocation
```

Observed defects that fix the reachable semantics:

  * the method is annotated `-> None` and has no `return` of results: it never
    produces a sequence of `(message_name, decoded_value)` pairs;
  * `bytes` has no `.copy()` method, so line 476 itself raises
    `AttributeError` when the argument really is `bytes` (a `bytearray`
    works; the model below follows the `bytearray` reading, which is the
    most favourable one for the code);
  * `self._process_dataset` (line 484) does not exist — no method of that
    name is defined anywhere in the repository (class `Rcv` or elsewhere) —
    so the first loop iteration that reaches line 484 raises
    `AttributeError`.  Consequently lines 485-514 (the catalog walk) are
    unreachable dead code; they also reference `self.MSG_STRUC` (the
    attribute is spelled `_MSG_STRUC`), subscript the integers
    `sub_header`/`dataset_header` as if they were dicts, and read
    `sub_sub_header` on branches where it was never assigned.

Because every loop iteration either raises at the length check or raises at
line 484, the `while` loop never completes even one iteration, and the whole
method's behaviour on a byte list is the single conditional modelled below.
(Without the line-484 crash, a dataset with declared length 0 would make
`stream = stream[0:]` a no-op and the loop would spin forever.) -/

/-- Outcome of a call to `_proc_rcv_stream`. -/
inductive RcvOutcome where
  /-- the `while` loop exited normally: the method returns `None` -/
  | ok
  /-- the `raise ValueError(...)` at line 480: declared dataset length larger
  than the remaining stream (the only framing error the code checks) -/
  | valueErrorBadLength
  /-- the `AttributeError` at line 484: `self._process_dataset` does not exist -/
  | errorNoProcessDataset
deriving DecidableEq, Repr

/-- Model of `_proc_rcv_stream(udp_data_stream)` on a byte list (the `bytearray` reading
of line 476; with a genuine `bytes` argument even the `.copy()` call raises). -/
def proc_rcv_stream (udp_data_stream : List Nat) : RcvOutcome :=
  let stream := udp_data_stream            -- stream = udp_data_stream.copy()
  if 4 ≤ stream.length then                -- while len(stream) >= 4:
    let dataset_length := fromBytesLE (stream.take 2)
    if stream.length < dataset_length then -- if dataset_length > len(stream):
      RcvOutcome.valueErrorBadLength       --     raise ValueError(...)
    else
      -- dataset_header = ...; dataset_data = ...; stream = stream[dataset_length:]
      -- self._process_dataset(dataset_header, dataset_data)  -- AttributeError
      RcvOutcome.errorNoProcessDataset
  else
    RcvOutcome.ok                          -- loop exit; implicit `return None`

/-! ## The static message catalogs

Source: `Z21_DATASET.MSGs.TO_Z21` (z21client.py lines 133-225) and
`Z21_DATASET.MSGs.From_Z21` (lines 253-308). Each is a nested Python dict:
integer keys map to child nodes (either a descriptor dict or a further group
dict), and descriptor dicts carry the string keys `"name"`, `"callback"` and
`"targetValueName"`. The dispatcher (lines 491 and 501) distinguishes leaf from
group with `if "name" not in structure`.

A node is modelled by its integer-keyed entries and its string-keyed entries
separately (Python interleaves them in one dict; no lookup depends on the
interleaving). All `"callback"` values in the source are `None`; string values
are `some s`, `None` is `none`. Python dict literals with a duplicated key
(as in the `0xE6` group, which lists `0x30` and `0x31` three times each) keep
only the *last* value for that key, which `pyDedup` reproduces.

A large block of `TO_Z21` entries (lines 184-224) misspells the `"name"` key
as `"name:"` — the colon is inside the string literal. These are transcribed
verbatim below via `descMis`. -/

/-- One node of a message catalog: integer-keyed children and string-keyed
descriptor fields (value `none` models Python `None`). -/
inductive CatNode where
  | dict (ints : List (Nat × CatNode)) (strs : List (String × Option String))

/-- the integer-keyed entries of a node, as listed in the source literal -/
def CatNode.ints : CatNode → List (Nat × CatNode)
  | .dict i _ => i

/-- the string-keyed entries of a node -/
def CatNode.strs : CatNode → List (String × Option String)
  | .dict _ s => s

/-- Python dict-literal semantics for duplicated keys: the last value listed
for a key wins (earlier pairs with the same key are dropped). -/
def pyDedup (l : List (Nat × CatNode)) : List (Nat × CatNode) :=
  l.foldl (fun acc p => (acc.filter (fun q => q.1 != p.1)) ++ [p]) []

/-- Python `k in structure` for a string key (the dispatcher's leaf test). -/
def CatNode.hasStr (n : CatNode) (k : String) : Bool :=
  n.strs.any (fun p => p.1 == k)

/-- A terminal (leaf) entry: a node with no integer-keyed children, i.e. a
message descriptor rather than a group of further tags. -/
def CatNode.isTerminal (n : CatNode) : Bool :=
  n.ints.isEmpty

/-- Python `structure[k]` for an integer key, with dict-literal semantics. -/
def CatNode.lookupInt (n : CatNode) (k : Nat) : Option CatNode :=
  ((pyDedup n.ints).find? (fun p => p.1 == k)).map (·.2)

/-- the child nodes of a node (values of the effective dict) -/
def CatNode.children (n : CatNode) : List CatNode :=
  (pyDedup n.ints).map (·.2)

/-- All nodes reachable from `n` in at most `fuel` steps. The catalogs nest at
most three levels below the root, so any `fuel ≥ 3` enumerates every node. -/
def nodesUpTo : Nat → CatNode → List CatNode
  | 0, n => [n]
  | Nat.succ fuel, n => n :: (n.children.flatMap (nodesUpTo fuel))

/-- a descriptor written with the correct `"name"` key:
`{"name": nm, "callback": None, "targetValueName": tgt}` -/
def descN (nm : String) (tgt : Option String) : CatNode :=
  .dict [] [("name", some nm), ("callback", none), ("targetValueName", tgt)]

/-- a descriptor as misspelled in the source (key `"name:"`, colon included):
`{"name:": nm, "callback": None, "targetValueName": None}` -/
def descMis (nm : String) : CatNode :=
  .dict [] [("name:", some nm), ("callback", none), ("targetValueName", none)]

/-- Transcription of `Z21_DATASET.MSGs.TO_Z21` (z21client.py lines 133-225). -/
def TO_Z21 : CatNode := .dict [
  (0x10, descN "GET_SERIAL_NUMBER" none),
  (0x18, descN "GET_CODE" none),
  (0x1A, descN "GET_HWINFO" none),
  (0x30, descN "LOGOFF" none),
  (0x40, .dict [
    (0x21, .dict [
      (0x21, descN "X_GET_VERSION" none),
      (0x24, descN "X_GET_STATUS" none),
      (0x80, descN "X_SET_TRACK_POWER_OFF" none),
      (0x81, descN "X_SET_TRACK_POWER_ON" none)] []),
    (0x22, .dict [
      (0x11, descN "X_DCC_READ_REGISTER" none)] []),
    (0x23, .dict [
      (0x11, descN "X_CV_READ" none),
      (0x12, descN "X_DCC_WRITE_REGISTER" none)] []),
    (0x24, .dict [
      (0x12, descN "X_CV_WRITE" none),
      (0xFF, descN "X_MM_WRITE_BYTE" none)] []),
    (0x43, descN "X_GET_TURNOUT_INFO" none),
    (0x44, descN "X_GET_EXT_ACCESSORY_INFO" none),
    (0x53, descN "X_SET_TURNOUT" none),
    (0x54, descN "X_SET_EXT_ACCESSORY" none),
    (0x80, descN "X_SET_STOP" none),
    (0x92, descN "X_SET_LOCO_E_STOP" none),
    (0xE3, .dict [
      (0x44, descN "X_PURGE_LOCO" none),
      (0xF0, descN "X_GET_LOCO_INFO" none)] []),
    (0xE4, .dict [
      (0x10, descN "X_SET_LOCO_DRIVE_14STEPS" none),
      (0x12, descN "X_SET_LOCO_DRIVE_28STEPS" none),
      (0x13, descN "X_SET_LOCO_DRIVE_128STEPS" none),
      (0xF8, descN "X_SET_LOCO_FUNCTION" none),
      (0x20, descN "X_SET_LOCO_FUNCTION_GROUP_1" none),
      (0x21, descN "X_SET_LOCO_FUNCTION_GROUP_2" none),
      (0x22, descN "X_SET_LOCO_FUNCTION_GROUP_3" none),
      (0x23, descN "X_SET_LOCO_FUNCTION_GROUP_4" none),
      (0x28, descN "X_SET_LOCO_FUNCTION_GROUP_5" none),
      (0x29, descN "X_SET_LOCO_FUNCTION_GROUP_6" none),
      (0x2A, descN "X_SET_LOCO_FUNCTION_GROUP_7" none),
      (0x2B, descN "X_SET_LOCO_FUNCTION_GROUP_8" none),
      (0x50, descN "X_SET_LOCO_FUNCTION_GROUP_9" none),
      (0x51, descN "X_SET_LOCO_FUNCTION_GROUP_10" none),
      (0x5F, descN "X_SET_LOCO_BINARY_STATE" none)] []),
    (0xE6, .dict [
      (0x30, descMis "X_CV_POM_WRITE_BYTE"),
      (0x30, descMis "X_CV_POM_WRITE_BIT"),
      (0x30, descMis "X_CV_POM_READ_BYTE"),
      (0x31, descMis "X_CV_POM_ACCESSORY_WRITE_BYTE"),
      (0x31, descMis "X_CV_POM_ ACCESSORY_WRITE_BIT"),
      (0x31, descMis "X_CV_POM_ ACCESSORY_READ_BYTE")] []),
    (0xF1, .dict [
      (0x0A, descMis "_X_GET_FIRMWARE_VERSION")] [])] []),
  (0x50, descMis "SET_BROADCASTFLAGS"),
  (0x51, descMis "GET_BROADCASTFLAGS"),
  (0x60, descMis "GET_LOCOMODE"),
  (0x61, descMis "SET_LOCOMODE"),
  (0x70, descMis "GET_TURNOUTMODE"),
  (0x71, descMis "SET_TURNOUTMODE"),
  (0x81, descMis "RMBUS_GETDATA"),
  (0x82, descMis "RMBUS_PROGRAMMODULE"),
  (0x85, descMis "SYSTEMSTATE_GETDATA"),
  (0x89, descMis "RAILCOM_GETDATA"),
  (0xA2, descMis "LOCONET_FROM_LAN"),
  (0xA3, descMis "LOCONET_DISPATCH_ADDR"),
  (0xA4, descMis "LOCONET_DETECTOR"),
  (0xC4, descMis "CAN_DETECTOR"),
  (0xC8, descMis "CAN_DEVICE_GET_DESCRIPTION"),
  (0xC9, descMis "CAN_DEVICE_SET_DESCRIPTION"),
  (0xCB, descMis "CAN_BOOSTER_SET_TRACKPOWER"),
  (0xCC, descMis "FAST_CLOCK_CONTROL"),
  (0xCE, descMis "FAST_CLOCK_SETTINGS_GET"),
  (0xCF, descMis "FAST_CLOCK_SETTINGS_SET"),
  (0xB2, descMis "BOOSTER_SET_POWER"),
  (0xB8, descMis "BOOSTER_GET_DESCRIPTION"),
  (0xB9, descMis "BOOSTER_SET_DESCRIPTION"),
  (0xBB, descMis "BOOSTER_SYSTEMSTATE_GETDATA"),
  (0xD8, descMis "DECODER_GET_DESCRIPTION"),
  (0xD9, descMis "DECODER_SET_DESCRIPTION"),
  (0xDB, descMis "DECODER_SYSTEMSTATE_GETDATA"),
  (0xE8, .dict [
    (0x06, descMis "ZLINK_GET_HWINFO")] [])] []

/-- Transcription of `Z21_DATASET.MSGs.From_Z21` (z21client.py lines 253-308). -/
def From_Z21 : CatNode := .dict [
  (0x10, descN "SERIAL_NUMBER" (some "serial_number")),
  (0x18, descN "CODE" (some "lock_code")),
  (0x1A, descN "HWINFO" (some "hw_type_fw_version")),
  (0x40, .dict [
    (0x43, descN "X_TURNOUT_INFO" (some "turnout_state")),
    (0x44, descN "X_EXT_ACCESSORY_INFO" (some "accessory_state_information")),
    (0x61, .dict [
      (0x00, descN "X_BC_TRACK_POWER_OFF" none),
      (0x01, descN "X_BC_TRACK_POWER_ON" none),
      (0x02, descN "X_BC_PROGRAMMING_MODE" none),
      (0x08, descN "X_BC_TRACK_SHORT_CIRCUIT" none),
      (0x12, descN "X_CV_NACK_SC" none),
      (0x13, descN "X_CV_NACK" none),
      (0x82, descN "X_UNKNOWN_COMMAND" none)] []),
    (0x62, .dict [
      (0x22, descN "X_STATUS_CHANGED" (some "state"))] []),
    (0x63, .dict [
      (0x21, descN "X_VERSION" (some "xbus_version_id"))] []),
    (0x64, .dict [
      (0x14, descN "X_CV_RESULT" (some "cv_result"))] []),
    (0x81, descN "X_BC_STOPPED" none),
    (0xEF, descN "X_LOCO_INFO" (some "loco_information")),
    (0xF3, .dict [
      (0x0A, descN "X_FIRMWARE_VERSION" (some "Version_bcd"))] [])] []),
  (0x51, descN "BROADCASTFLAGS" (some "broadcast_flags")),
  (0x60, descN "LOCOMODE" (some "loco_address_mode")),
  (0x70, descN "TURNOUTMODE" (some "accessory_decoder_address_mode")),
  (0x80, descN "RMBUS_DATACHANGED" (some "group_index_feedback_status")),
  (0x84, descN "SYSTEMSTATE_DATACHANGED" (some "system_state")),
  (0x88, descN "RAILCOM_DATACHANGED" (some "rail_com_data")),
  (0xA0, descN "LOCONET_Z21_RX" (some "loco_net_meldung")),
  (0xA1, descN "LOCONET_Z21_TX" (some "loco_net_meldung")),
  (0xA2, descN "LOCONET_FROM_LAN" (some "loco_net_meldung")),
  (0xA3, descN "LOCONET_DISPATCH_ADDR" (some "loco_address_ergebnis")),
  (0xA4, descN "LOCONET_DETECTOR" (some "type_feedback_address_info")),
  (0xC4, descN "CAN_DETECTOR" (some "occupancy_message")),
  (0xC8, descN "CAN_DEVICE_DESCRIPTION" (some "net_id_name")),
  (0xCA, descN "CAN_BOOSTER_SYSTEMSTATE_CHGD" (some "can_booster_system_state")),
  (0xCD, descN "FAST_CLOCK_DATA" (some "fastclock_time")),
  (0xCE, descN "FAST_CLOCK_SETTINGS_GET" (some "fastclock_settings")),
  (0xB8, descN "BOOSTER_DESCRIPTION" (some "string")),
  (0xBA, descN "BOOSTER_SYSTEMSTATE_DATACHANGED" (some "booster_system_state")),
  (0xD8, descN "DECODER_DESCRIPTION" (some "string")),
  (0xDA, descN "DECODER_SYSTEMSTATE_DATACHANGED" (some "decoder_system_state")),
  (0xE8, .dict [
    (0x06, descN "ZLINK_HWINFO" (some "z_hw_info"))] [])] []

/-! ## Helper lemmas -/

/-- Masking an int to 16 bits always fits a 2-byte `to_bytes`: the inner
`to_bytes` calls of `stream` for header and sub-header never raise. -/
theorem pyToBytesLE_two_emod (x : Int) :
    pyToBytesLE 2 (Int.emod x 65536) =
      some (natToBytesLE 2 (Int.emod x 65536).toNat) := by
  unfold pyToBytesLE
  rw [if_pos]
  refine ⟨Int.emod_nonneg x (by norm_num), ?_⟩
  calc Int.emod x 65536 < 65536 := Int.emod_lt_of_pos x (by norm_num)
    _ = (256 : Int) ^ 2 := by norm_num

/-- Masking an int to 8 bits always fits a 1-byte `to_bytes`: the `to_bytes`
call of `stream` for db0 never raises. -/
theorem pyToBytesLE_one_emod (x : Int) :
    pyToBytesLE 1 (Int.emod x 256) =
      some (natToBytesLE 1 (Int.emod x 256).toNat) := by
  unfold pyToBytesLE
  rw [if_pos]
  refine ⟨Int.emod_nonneg x (by norm_num), ?_⟩
  calc Int.emod x 256 < 256 := Int.emod_lt_of_pos x (by norm_num)
    _ = (256 : Int) ^ 1 := by norm_num

/-- Binding the length-field bytes and appending is `Option.map` of append. -/
theorem bind_append_eq_map (o : Option (List Nat)) (body : List Nat) :
    o.bind (fun lenBytes => some (lenBytes ++ body)) = o.map (fun x => x ++ body) := by
  cases o <;> rfl

/-- The `byte_stream` computation never fails and equals the reduced tag bytes
followed by the packed payload, whatever the integer tag values are. -/
theorem byte_stream_eq {α : Type} (m : SndMsg α) (data : α) :
    m.byte_stream data = some (m.tag_bytes ++ m.pack_callback data) := by
  cases hsub : m._sub_header with
  | none =>
      cases hdb : m._db0 with
      | none =>
          simp only [SndMsg.byte_stream, SndMsg.tag_bytes, hsub, hdb, pyToBytesLE_two_emod,
            Option.bind_eq_bind, Option.some_bind, Option.pure_def, List.append_nil]
      | some d =>
          simp only [SndMsg.byte_stream, SndMsg.tag_bytes, hsub, hdb, pyToBytesLE_two_emod,
            pyToBytesLE_one_emod, Option.map_some', Option.bind_eq_bind, Option.some_bind,
            Option.pure_def, List.append_assoc]
  | some s =>
      cases hdb : m._db0 with
      | none =>
          simp only [SndMsg.byte_stream, SndMsg.tag_bytes, hsub, hdb, pyToBytesLE_two_emod,
            Option.bind_eq_bind, Option.some_bind, Option.pure_def, List.append_nil]
      | some d =>
          simp only [SndMsg.byte_stream, SndMsg.tag_bytes, hsub, hdb, pyToBytesLE_two_emod,
            pyToBytesLE_one_emod, Option.map_some', Option.bind_eq_bind, Option.some_bind,
            Option.pure_def, List.append_assoc]

/-- The byte sequence `stream` returns: the length field computed over the tag
bytes plus payload — not over the final output — prepended to them. -/
theorem stream_fst_eq {α : Type} (m : SndMsg α) (data : α) :
    (m.stream data).1 =
      (pyToBytesLE 2 ((m.tag_bytes ++ m.pack_callback data).length : Int)).map
        (fun x => x ++ (m.tag_bytes ++ m.pack_callback data)) := by
  have h1 : (m.stream data).1 = (m.byte_stream data).bind
      (fun body => (pyToBytesLE 2 (body.length : Int)).map (fun x => x ++ body)) := by
    simp only [SndMsg.stream, Option.bind_eq_bind, Option.pure_def, bind_append_eq_map]
  rw [h1, byte_stream_eq, Option.some_bind]

/-! ## Settling the claims -/

/-- the outbound `GET_SERIAL_NUMBER` message: `TO_Z21` header `0x10`, no
sub-header, no db0, and the message carries no payload bytes -/
def getSerialNumberMsg : SndMsg Unit :=
  { _name := "GET_SERIAL_NUMBER", pack_callback := fun _ => [], _header := 0x10 }

/-- C1. The claim states `LE_uint16(b[0:2]) == len(b)` for every encoder output
`b` — the length field should cover the whole dataset including itself.  The
code computes `len(byte_stream)` *before* prepending the 2-byte length field,
so the field always holds `len(b) - 2`.  At the concrete failing input
(`GET_SERIAL_NUMBER`, empty payload) the output is `02 00 10 00`: its length
field decodes to 2 while the output is 4 bytes long — yet the module's own
`main()` (z21client.py line 763) sends this very message as `04 00 10 00`, and
`_proc_rcv_stream` (lines 478-483) consumes datasets treating the length field
as covering the length field itself.  The code contradicts the rest of the
repository; the claim reflects the intent. -/
theorem stream_length_field_excludes_itself :
    (getSerialNumberMsg.stream ()).1 = some [0x02, 0x00, 0x10, 0x00] ∧
    fromBytesLE (List.take 2 [0x02, 0x00, 0x10, 0x00]) = 2 ∧
    ([0x02, 0x00, 0x10, 0x00] : List Nat).length = 4 := by
  decide

/-- C2. The claim: feeding a datagram of well-formed, catalog-resolvable
datasets returns one `(message_name, decoded_value)` pair per dataset and
updates the target Client-State slots.  The code cannot do any of this:
`_proc_rcv_stream` is declared `-> None` and returns no pairs, and its loop
body calls `self._process_dataset(...)` (line 484), a method that does not
exist anywhere in the repository, so the first dataset already raises
`AttributeError` — the catalog walk and the Client-State writes (lines
485-514) are unreachable.  Evaluated here on the spec's own multi-dataset
example: a serial-number response (`08 00 10 00` + 4 bytes) concatenated with
a hardware-info response (`0C 00 1A 00` + 8 bytes). -/
theorem proc_rcv_stream_returns_no_results :
    proc_rcv_stream
      [0x08, 0x00, 0x10, 0x00, 0xD5, 0x07, 0x00, 0x00,
       0x0C, 0x00, 0x1A, 0x00, 0x01, 0x02, 0x00, 0x00, 0x20, 0x01, 0x00, 0x00] =
      RcvOutcome.errorNoProcessDataset := by
  decide

/-- C3. The claim: on a datagram `[valid dataset][dataset with unknown
header]`, the valid dataset's decoded result is preserved and returned next to
the `UnknownHeader` error.  The code preserves nothing: it raises
`AttributeError` on the *first* (valid) dataset — `self._process_dataset` does
not exist — before any unknown-header check can run, and the method returns
`None`, so there is no result sequence that partial results could be returned
in.  The second dataset's header `0xFF` is indeed absent from the inbound
catalog. -/
theorem proc_rcv_stream_discards_prefix_results :
    proc_rcv_stream
      [0x04, 0x00, 0x10, 0x00, 0x04, 0x00, 0xFF, 0x00] =
      RcvOutcome.errorNoProcessDataset ∧
    (From_Z21.lookupInt 0xFF).isNone = true := by
  decide

/-- C4. The claim: `MalformedDataset` exactly when `length < 4`, or
`length >` remaining bytes, or a 1-3-byte trailing remainder.  The code checks
only `dataset_length > len(stream)` (raising `ValueError`):

  * a bare 3-byte datagram — a 1-3-byte remainder after zero whole datasets —
    is silently accepted (the `while` guard just exits; claim: error);
  * a dataset declaring `length = 2 < 4` passes the framing check and proceeds
    into the body (claim: error before any processing); it then hits the
    unrelated `AttributeError` of the undefined `self._process_dataset`, and
    had that call been absent, a declared length of 0-3 would make
    `stream = stream[dataset_length:]` advance by less than a dataset
    (length 0: an infinite loop);
  * only an over-long declared length raises.

The spec's framing rules are the intent (its §3 invariant `length >= 4` and
its trailing-remainder rule); the code is an incomplete draft of them. -/
theorem proc_rcv_stream_framing_checks_missing :
    proc_rcv_stream [0x00, 0x00, 0x00] = RcvOutcome.ok ∧
    proc_rcv_stream [0x02, 0x00, 0x10, 0x00] = RcvOutcome.errorNoProcessDataset ∧
    proc_rcv_stream [0x09, 0x00, 0x10, 0x00] = RcvOutcome.valueErrorBadLength := by
  decide

/-- the outbound `X_GET_TURNOUT_INFO` message: `TO_Z21` header `0x40` with
sub-header `0x43`, payload packed verbatim -/
def xGetTurnoutInfoMsg : SndMsg (List Nat) :=
  { _name := "X_GET_TURNOUT_INFO", pack_callback := fun bs => bs,
    _header := 0x40, _sub_header := some 0x43 }

/-- C5. When the descriptor has a sub-header, `stream` *reassigns*
`byte_stream` to the sub-header bytes (`=`, not `+=`), so the output is
`length(2,LE) ++ sub_header(2,LE) [++ db0(1)] ++ payload` and the previously
computed header bytes are discarded: the result does not depend on the header
value at all. -/
theorem stream_sub_header_overwrites_header {α : Type} (m : SndMsg α) (data : α)
    (s : Int) (hs : m._sub_header = some s) :
    (m.stream data).1 =
      (let body := natToBytesLE 2 (Int.emod s 65536).toNat
          ++ (match m._db0 with
              | none => []
              | some d => natToBytesLE 1 (Int.emod d 256).toNat)
          ++ m.pack_callback data
       (pyToBytesLE 2 (body.length : Int)).map (· ++ body)) ∧
    (∀ h' : Int, ({ m with _header := h' }.stream data).1 = (m.stream data).1) := by
  constructor
  · rw [stream_fst_eq]
    simp only [SndMsg.tag_bytes, hs, List.append_assoc]
  · intro h'
    rw [stream_fst_eq, stream_fst_eq]
    simp only [SndMsg.tag_bytes, hs]

/-- Witness for C5: the `X_GET_TURNOUT_INFO` message (header `0x40`, sub-header
`0x43`) with a 2-byte turnout address as payload encodes to
`04 00 43 00 12 34`: sub-header in the tag position, header bytes absent, and
replacing the header by `0x99` changes nothing. -/
theorem stream_sub_header_overwrites_header_witness :
    (xGetTurnoutInfoMsg.stream [0x12, 0x34]).1
      = some [0x04, 0x00, 0x43, 0x00, 0x12, 0x34] ∧
    ({ xGetTurnoutInfoMsg with _header := 0x99 }.stream [0x12, 0x34]).1
      = (xGetTurnoutInfoMsg.stream [0x12, 0x34]).1 := by
  have h := stream_sub_header_overwrites_header xGetTurnoutInfoMsg [0x12, 0x34] 0x43 rfl
  refine ⟨?_, h.2 0x99⟩
  rw [h.1]
  decide

/-- the BCD integer reading of a byte string taken least-significant byte
first, low nibble first — exactly the iteration order of `bcd_decode` -/
def bcdNatRev : List Nat → Nat
  | [] => 0
  | b :: t => b % 16 + (b / 16) * 10 + 100 * bcdNatRev t

/-- Evaluation rule for `pow10` as an integer power of 10 over `ℚ`. -/
theorem pow10_eq_zpow (e : Int) : pow10 e = (10 : ℚ) ^ e := by
  unfold pow10
  split
  case isTrue h => rw [← zpow_natCast]; congr 1; omega
  case isFalse h => rw [one_div, ← zpow_natCast, ← zpow_neg]; congr 1; omega

/-- The folded loop of `bcd_decode`, started at enumeration index `k` and
accumulator `res`, adds the BCD reading of the remaining bytes scaled by
`10 ^ (k*2 - decimals)`. -/
theorem bcd_foldl_enumFrom (decimals : Int) :
    ∀ (l : List Nat) (k : Nat) (res : ℚ),
      ((l.enumFrom k).foldl (fun r nb => bcd_step decimals r nb.1 nb.2) res)
        = res + (bcdNatRev l : ℚ) * (10 : ℚ) ^ ((k : Int) * 2 - decimals)
  | [], k, res => by simp [bcdNatRev]
  | b :: t, k, res => by
      rw [List.enumFrom, List.foldl_cons, bcd_foldl_enumFrom decimals t (k + 1)]
      show bcd_step decimals res k b + _ * _ = _
      rw [bcd_step, bcdNatRev]
      push_cast
      simp only [pow10_eq_zpow]
      rw [show ((k : Int) + 1) * 2 - decimals = ((k : Int) * 2 - decimals) + 2 by ring,
          show (k : Int) * 2 + 1 - decimals = ((k : Int) * 2 - decimals) + 1 by ring,
          zpow_add₀ (by norm_num : (10 : ℚ) ≠ 0),
          zpow_add₀ (by norm_num : (10 : ℚ) ≠ 0),
          show ((10 : ℚ) ^ (1 : Int)) = 10 by norm_num,
          show ((10 : ℚ) ^ (2 : Int)) = 100 by norm_num]
      ring

/-- C6. `bcd_decode` reads the bytes as BCD nibble pairs, iterating from the
least-significant byte with the low nibble first (`bcdNatRev` applied to
`data.reverse` is literally that reading), scales by `10 ^ (-decimals)`, and
on the spec's example `decode_bcd(bytes=[0x01, 0x23], decimals=2)` yields
`1.23`. -/
theorem bcd_decode_characterization :
    (∀ (data : List Nat) (decimals : Int),
        bcd_decode data decimals
          = (bcdNatRev data.reverse : ℚ) * pow10 (-decimals)) ∧
    bcd_decode [0x01, 0x23] 2 = 123 / 100 := by
  constructor
  · intro data decimals
    rw [bcd_decode, show data.reverse.enum = data.reverse.enumFrom 0 from rfl,
      bcd_foldl_enumFrom, pow10_eq_zpow]
    norm_num
  · norm_num [bcd_decode, bcd_step, pow10, List.enum, Int.toNat]

/-- Counterexample for C7: the byte `0x0A` has low nibble `10 > 9`, yet
`bcd_decode` returns the number `10` — the source contains no nibble
validation and no failure path at all, contradicting the claimed `InvalidBCD`
error. -/
theorem bcd_decode_accepts_nibble_above_nine :
    bcd_decode [0x0A] 0 = 10 := by
  norm_num [bcd_decode, bcd_step, pow10, List.enum, Int.toNat]

/-- C7 (amended). `bcd_decode` performs no nibble validation: any byte is
accepted and each nibble contributes its face value times its power of ten,
so a nibble above 9 produces a number instead of an `InvalidBCD` failure. -/
theorem bcd_decode_no_validation (b : Nat) :
    bcd_decode [b] 0 = ((b / 16) * 10 + b % 16 : Nat) := by
  rw [bcd_decode]
  show bcd_step 0 0 0 b = _
  rw [bcd_step]
  norm_num [pow10, Int.toNat]
  ring

/-- Counterexample for C8: encoding is not free of observable state change on
the encoder — `stream` assigns `self._last_data = data`, so the freshly
constructed `GET_SERIAL_NUMBER` encoder object (whose `_last_data` is `None`)
differs from itself after one `stream` call. -/
theorem stream_mutates_last_data :
    (getSerialNumberMsg.stream ()).2 ≠ getSerialNumberMsg := by
  intro h
  have h2 := congrArg SndMsg._last_data h
  simp [SndMsg.stream, getSerialNumberMsg] at h2

/-- C8 (amended). Encoding never touches Client State (`SndMsg` holds no
reference to it) and the produced bytes are a pure function of the catalog
fields and the payload — in particular they do not depend on `_last_data` —
but the call does mutate the encoder: its entire state change is exactly
`_last_data := data`. -/
theorem stream_pure_except_last_data {α : Type} (m : SndMsg α) (data : α)
    (ld : Option α) :
    (m.stream data).2 = { m with _last_data := some data } ∧
    ({ m with _last_data := ld }.stream data).1 = (m.stream data).1 :=
  ⟨rfl, rfl⟩

/-- Counterexample for C9: `TO_Z21[0x50]` (`SET_BROADCASTFLAGS`) is a terminal
catalog entry, but its descriptor misspells the key as `"name:"`, so the
dispatcher's `"name" in structure` test would misclassify it as a group; the
claimed invariant fails over the union of both catalogs. -/
theorem catalog_terminal_without_name :
    (TO_Z21.lookupInt 0x50).map (fun n => n.isTerminal && !(n.hasStr "name"))
      = some true ∧
    ((nodesUpTo 6 TO_Z21 ++ nodesUpTo 6 From_Z21).all
        fun n => !n.isTerminal || n.hasStr "name") = false := by
  decide

/-- C9 (amended). Every terminal entry of the inbound catalog `From_Z21`
carries the key `"name"`, so the dispatcher's leaf test classifies all inbound
descriptors correctly; in the outbound catalog `TO_Z21` the invariant fails —
the entries at lines 184-224 carry the misspelled key `"name:"` instead —
though every `TO_Z21` terminal carries one of `"name"`/`"name:"`. -/
theorem catalog_terminals_named :
    ((nodesUpTo 6 From_Z21).all fun n => !n.isTerminal || n.hasStr "name")
      = true ∧
    ((nodesUpTo 6 TO_Z21).all
        fun n => !n.isTerminal || (n.hasStr "name" || n.hasStr "name:"))
      = true := by
  decide

/-- C10. The encoder never rejects an out-of-range tag value: for every
integer `header`, `sub_header` and `db0` (negative or arbitrarily large), the
masks `& 0xFFFF` / `& 0xFF` reduce the value modulo `2^16` resp. `2^8` before
`to_bytes`, so the tag-encoding calls always succeed and `byte_stream` is the
reduced tag bytes followed by the packed payload — no `ValueOutOfRange`-like
failure exists on this path. -/
theorem byte_stream_never_rejects_tags {α : Type} (m : SndMsg α) (data : α) :
    m.byte_stream data = some (m.tag_bytes ++ m.pack_callback data) :=
  byte_stream_eq m data

end Z21
